import Mathlib

/-!
Shallow embedding of the soccer-simulation Match Simulation Core
(feremabraz/soccer-simulation) and proofs about its behaviour.

Numbers that are IEEE doubles in the TypeScript source are modelled as
rationals (ℚ); every constant appearing below (0.5, 0.98, 45, …) is written
as the exact rational the source literal denotes.  Randomness
(`Math.random()` draws) is modelled by passing the drawn values as explicit
arguments.  Mutation of `this` is modelled by functions returning the
updated record.
-/

namespace Soccer

/-- `TeamSide` from utils/types.ts: `"home" | "away"`. -/
inductive TeamSide
  | home
  | away
deriving DecidableEq, Repr

/-- The opposite side (used for `team === "home" ? "away" : "home"` patterns). -/
def TeamSide.other : TeamSide → TeamSide
  | .home => .away
  | .away => .home

/-- The string a `TeamSide` value denotes in TypeScript (`"home"` / `"away"`);
used where the source compares a `TeamSide` against a string id. -/
def sideStr : TeamSide → String
  | .home => "home"
  | .away => "away"

/-- `PlayerRole` from utils/types.ts: `"GK" | "DEF" | "MID" | "FWD"`. -/
inductive PlayerRole
  | GK
  | DEF
  | MID
  | FWD
deriving DecidableEq, Repr

/-- `GameState` from utils/types.ts. -/
inductive GameState
  | idle
  | playing
  | paused
  | halftime
  | fulltime
  | extratime
deriving DecidableEq, Repr

/-- `EventType` from utils/types.ts. -/
inductive EventType
  | pass
  | shot
  | goal
  | save
  | tackle
  | foul
  | offside
  | corner
  | throwin
  | goalkick
  | freekick
  | penalty
  | yellowcard
  | redcard
  | substitution
  | kickoff
  | halftime
  | fulltime
deriving DecidableEq, Repr

/-- `Vector2D` from utils/types.ts. -/
structure Vector2D where
  x : ℚ
  y : ℚ
deriving DecidableEq, Repr

/-- A `{ home: α; away: α }` record (scores, stats pairs, …). -/
structure SidePair (α : Type) where
  home : α
  away : α
deriving DecidableEq, Repr

/-- Projection of a `SidePair` at a side. -/
def SidePair.get {α : Type} (p : SidePair α) : TeamSide → α
  | .home => p.home
  | .away => p.away

/-- The player attributes read by the operations embedded here
(`PlayerAttributes` in utils/types.ts has many more fields; only the ones
some embedded function reads are kept, the others are never consulted). -/
structure PlayerAttributes where
  tackling : ℚ
  aggression : ℚ
  finishing : ℚ
  dribbling : ℚ
  speed : ℚ
  stamina : ℚ
deriving DecidableEq, Repr

/-- Keys of the modelled attributes (`keyof PlayerAttributes` arguments). -/
inductive AttrKey
  | tackling
  | aggression
  | finishing
  | dribbling
  | speed
  | stamina
deriving DecidableEq, Repr

/-- Attribute lookup (`this.attributes[attribute]`). -/
def PlayerAttributes.get (a : PlayerAttributes) : AttrKey → ℚ
  | .tackling => a.tackling
  | .aggression => a.aggression
  | .finishing => a.finishing
  | .dribbling => a.dribbling
  | .speed => a.speed
  | .stamina => a.stamina

/-- `PlayerEntity` (core/player.ts), restricted to the fields the embedded
operations read or write. -/
structure PlayerEntity where
  id : Int
  name : String
  team : TeamSide
  role : PlayerRole
  position : Vector2D
  targetPosition : Vector2D
  attributes : PlayerAttributes
  fatigue : ℚ
  injured : Bool
  redCard : Bool
deriving DecidableEq, Repr

instance : Inhabited PlayerEntity :=
  ⟨{ id := 0, name := "", team := .home, role := .GK, position := ⟨0, 0⟩,
     targetPosition := ⟨0, 0⟩,
     attributes := ⟨0, 0, 0, 0, 0, 0⟩, fatigue := 0, injured := false,
     redCard := false }⟩

/-- core/player.ts `getEffectiveAttribute`:
`baseValue * (1 - this.fatigue * 0.5)`. -/
def PlayerEntity.getEffectiveAttribute (p : PlayerEntity) (key : AttrKey) : ℚ :=
  let baseValue := p.attributes.get key
  baseValue * (1 - p.fatigue * (1 / 2))

/-- `BallEntity` (core/ball.ts).  `possessor` holds a snapshot of the
referenced player (the source stores an object reference; the fields the
ball reads from it are its `position` and `team`). -/
structure BallEntity where
  position : Vector2D
  velocity : Vector2D
  possessor : Option PlayerEntity
  lastTouchTeam : TeamSide
  inAir : Bool
  height : ℚ
deriving DecidableEq, Repr

/-- core/ball.ts `keepInBounds`. -/
def BallEntity.keepInBounds (b : BallEntity) : BallEntity :=
  let b :=
    if b.position.x < 0 then
      { b with position := ⟨0, b.position.y⟩,
               velocity := ⟨-b.velocity.x * (1 / 2), b.velocity.y⟩ }
    else if b.position.x > 100 then
      { b with position := ⟨100, b.position.y⟩,
               velocity := ⟨-b.velocity.x * (1 / 2), b.velocity.y⟩ }
    else b
  if b.position.y < 0 then
    { b with position := ⟨b.position.x, 0⟩,
             velocity := ⟨b.velocity.x, -b.velocity.y * (1 / 2)⟩ }
  else if b.position.y > 100 then
    { b with position := ⟨b.position.x, 100⟩,
             velocity := ⟨b.velocity.x, -b.velocity.y * (1 / 2)⟩ }
  else b

/-- core/ball.ts `update(gameSpeed)`: while a possessor is set the ball's
position is forced to the possessor's position; otherwise velocity is
integrated, friction applied (0.98 airborne / 0.9 on the ground), tiny
velocities snapped to zero, airborne height decayed, and the result kept
in bounds. -/
def BallEntity.update (b : BallEntity) (gameSpeed : ℚ) : BallEntity :=
  match b.possessor with
  | some p => { b with position := p.position }
  | none =>
    if b.velocity.x ≠ 0 ∨ b.velocity.y ≠ 0 then
      let pos : Vector2D := ⟨b.position.x + b.velocity.x * gameSpeed,
                             b.position.y + b.velocity.y * gameSpeed⟩
      let frictionFactor : ℚ := if b.inAir then 49 / 50 else 9 / 10
      let v : Vector2D := ⟨b.velocity.x * frictionFactor, b.velocity.y * frictionFactor⟩
      let v : Vector2D := if |v.x| < 1 / 100 ∧ |v.y| < 1 / 100 then ⟨0, 0⟩ else v
      let hp : Bool × ℚ :=
        if b.inAir then
          let h := b.height - (1 / 5) * gameSpeed
          if h ≤ 0 then (false, 0) else (true, h)
        else (b.inAir, b.height)
      BallEntity.keepInBounds
        { b with position := pos, velocity := v, inAir := hp.1, height := hp.2 }
    else b

/-- core/ball.ts `setPossessor`. -/
def BallEntity.setPossessor (b : BallEntity) (player : Option PlayerEntity) : BallEntity :=
  match player with
  | some p =>
    { b with possessor := some p, lastTouchTeam := p.team,
             velocity := ⟨0, 0⟩, inAir := false, height := 0 }
  | none => { b with possessor := none }

/-! ## Match rules (rules/match-rules.ts) -/

/-- Result record of `isBallOutOfBounds`. -/
structure OutOfBoundsResult where
  isOut : Bool
  type : Option EventType
  team : Option TeamSide
  position : Option Vector2D
deriving DecidableEq, Repr

/-- rules/match-rules.ts `isBallOutOfBounds`: touchline crossings give a
throw-in to the side that did not last touch; goal-line crossings give a
corner if the defending side last touched, otherwise a goal kick. -/
def isBallOutOfBounds (ball : BallEntity) : OutOfBoundsResult :=
  let pos := ball.position
  if pos.y ≤ 0 ∨ pos.y ≥ 100 then
    { isOut := true, type := some .throwin,
      team := some (if ball.lastTouchTeam = .home then .away else .home),
      position := some ⟨pos.x, if pos.y ≤ 0 then 0 else 100⟩ }
  else if pos.x ≤ 0 then
    if ball.lastTouchTeam = .home then
      { isOut := true, type := some .corner, team := some .away,
        position := some ⟨0, if pos.y < 50 then 0 else 100⟩ }
    else
      { isOut := true, type := some .goalkick, team := some .home,
        position := some ⟨5, 50⟩ }
  else if pos.x ≥ 100 then
    if ball.lastTouchTeam = .away then
      { isOut := true, type := some .corner, team := some .home,
        position := some ⟨100, if pos.y < 50 then 0 else 100⟩ }
    else
      { isOut := true, type := some .goalkick, team := some .away,
        position := some ⟨95, 50⟩ }
  else
    { isOut := false, type := none, team := none, position := none }

/-- Result record of `isGoalScored`. -/
structure GoalResult where
  isGoal : Bool
  team : Option TeamSide
deriving DecidableEq, Repr

/-- rules/match-rules.ts `isGoalScored` (goal mouth: centre 50 ± 7.5). -/
def isGoalScored (ball : BallEntity) : GoalResult :=
  let pos := ball.position
  let goalCenterY : ℚ := 50
  let goalHalfWidth : ℚ := 15 / 2
  if pos.x ≤ 0 ∧ pos.y ≥ goalCenterY - goalHalfWidth ∧ pos.y ≤ goalCenterY + goalHalfWidth then
    { isGoal := true, team := some .away }
  else if pos.x ≥ 100 ∧ pos.y ≥ goalCenterY - goalHalfWidth ∧ pos.y ≤ goalCenterY + goalHalfWidth then
    { isGoal := true, team := some .home }
  else
    { isGoal := false, team := none }

/-- rules/match-rules.ts `isInPenaltyArea`. -/
def isInPenaltyArea (position : Vector2D) (defendingTeam : TeamSide) : Bool :=
  let penaltyAreaDepth : ℚ := 15
  let halfPenaltyAreaWidth : ℚ := 40 / 2
  let fieldCenterY : ℚ := 50
  match defendingTeam with
  | .home =>
    decide (position.x ≤ penaltyAreaDepth ∧
      position.y ≥ fieldCenterY - halfPenaltyAreaWidth ∧
      position.y ≤ fieldCenterY + halfPenaltyAreaWidth)
  | .away =>
    decide (position.x ≥ 100 - penaltyAreaDepth ∧
      position.y ≥ fieldCenterY - halfPenaltyAreaWidth ∧
      position.y ≤ fieldCenterY + halfPenaltyAreaWidth)

/-- Result record of `detectFoul`. -/
structure FoulResult where
  isFoul : Bool
  isPenalty : Bool
  isYellowCard : Bool
  isRedCard : Bool
deriving DecidableEq, Repr

/-- rules/match-rules.ts `detectFoul`.  In the source `distanceToBall` is
`tacklingPlayer.distanceTo(ball)` (a Euclidean distance); its value enters
the formulas only as a number, so it is taken here as an argument.  The
three `Math.random()` draws are passed as `r1 r2 r3`. -/
def detectFoul (tacklingPlayer tackledPlayer : PlayerEntity) (distanceToBall : ℚ)
    (r1 r2 r3 : ℚ) : FoulResult :=
  let tacklingSkill := tacklingPlayer.getEffectiveAttribute .tackling
  let aggression := tacklingPlayer.getEffectiveAttribute .aggression
  let foulChance : ℚ :=
    1 / 10 + aggression / 10 - tacklingSkill / 20 + distanceToBall / 50
  let foulChance : ℚ := max (1 / 20) (min (4 / 5) foulChance)
  let isFoul := decide (r1 < foulChance)
  if isFoul = false then
    { isFoul := false, isPenalty := false, isYellowCard := false, isRedCard := false }
  else
    let isPenalty :=
      isInPenaltyArea tackledPlayer.position
        (if tackledPlayer.team = .home then .away else .home)
    let isYellowCard := decide (r2 < 3 / 10 + aggression / 20 + distanceToBall / 100)
    let isRedCard := isYellowCard && decide (r3 < 1 / 10 + aggression / 30)
    { isFoul := isFoul, isPenalty := isPenalty,
      isYellowCard := isYellowCard && !isRedCard, isRedCard := isRedCard }

/-! ## Offside rule (rules/offside-rule.ts) -/

/-- Ascending numeric sort, the model of `Array.prototype.sort((a, b) => a - b)`
(on a list of plain numbers the sorted value sequence is unique, so any
sorting algorithm is a faithful model). -/
def sortAsc (xs : List ℚ) : List ℚ :=
  List.insertionSort (· ≤ ·) xs

/-- Descending numeric sort, the model of `sort((a, b) => b - a)`. -/
def sortDesc (xs : List ℚ) : List ℚ :=
  List.insertionSort (· ≥ ·) xs

/-- rules/offside-rule.ts `isPlayerOffside`.  The `match` on the sorted
list is the source's `length < 2` guard followed by taking index 1. -/
def isPlayerOffside (player : PlayerEntity) (_teammates : List PlayerEntity)
    (opponents : List PlayerEntity) (ball : BallEntity) : Bool :=
  if player.role = .GK then false
  else
    let isHome := player.team = .home
    let defendersPositionsX :=
      (opponents.filter fun p => decide (p.role = .DEF ∨ p.role = .GK)).map
        fun p => p.position.x
    let sorted := if isHome then sortAsc defendersPositionsX else sortDesc defendersPositionsX
    match sorted with
    | _ :: offsideLine :: _ =>
      let isAheadOfOffsideLine :=
        if isHome then decide (player.position.x > offsideLine)
        else decide (player.position.x < offsideLine)
      let isAheadOfBall :=
        if isHome then decide (player.position.x > ball.position.x)
        else decide (player.position.x < ball.position.x)
      isAheadOfOffsideLine && isAheadOfBall
    | _ => false

/-- rules/offside-rule.ts `calculateOffsideLine`.  The `match` branches are
the source's `length >= 2 ? sorted[1] : fallback` conditionals. -/
def calculateOffsideLine (players : List PlayerEntity) : SidePair ℚ :=
  let homePlayers := players.filter fun p => decide (p.team = .home)
  let awayPlayers := players.filter fun p => decide (p.team = .away)
  let homeDefendersPositionsX :=
    sortAsc ((awayPlayers.filter fun p => decide (p.role = .DEF ∨ p.role = .GK)).map
      fun p => p.position.x)
  let awayDefendersPositionsX :=
    sortDesc ((homePlayers.filter fun p => decide (p.role = .DEF ∨ p.role = .GK)).map
      fun p => p.position.x)
  let homeLine : ℚ :=
    match homeDefendersPositionsX with
    | _ :: b :: _ => b
    | _ => 40
  let awayLine : ℚ :=
    match awayDefendersPositionsX with
    | _ :: b :: _ => b
    | _ => 60
  ⟨homeLine, awayLine⟩

/-! ## Match state (match/match-state.ts) -/

/-- `GameEvent` from utils/types.ts, restricted to the fields the embedded
code writes or reads (`teamId` is a string id in the source and is compared
against `"home"` / `"away"`). -/
structure GameEvent where
  type : EventType
  time : ℚ
  message : String
  player1Id : Option Int := none
  player2Id : Option Int := none
  teamId : Option String := none
  position : Option Vector2D := none
deriving DecidableEq, Repr

/-- The `setpiece` record of `MatchState`. -/
structure SetPiece where
  type : Option EventType
  team : Option TeamSide
  position : Option Vector2D
deriving DecidableEq, Repr

/-- The `cards` record of `MatchState`. -/
structure CardLists where
  yellow : List Int
  red : List Int
deriving DecidableEq, Repr

/-- `MatchStats` from utils/types.ts. -/
structure MatchStats where
  possession : SidePair ℚ
  shots : SidePair ℕ
  shotsOnTarget : SidePair ℕ
  corners : SidePair ℕ
  fouls : SidePair ℕ
  yellowCards : SidePair ℕ
  redCards : SidePair ℕ
  offsides : SidePair ℕ
  passes : SidePair ℕ
  passAccuracy : SidePair ℚ
deriving DecidableEq, Repr

/-- The all-zero stats record both the field initialisers and `reset()` use. -/
def zeroStats : MatchStats :=
  { possession := ⟨0, 0⟩, shots := ⟨0, 0⟩, shotsOnTarget := ⟨0, 0⟩,
    corners := ⟨0, 0⟩, fouls := ⟨0, 0⟩, yellowCards := ⟨0, 0⟩,
    redCards := ⟨0, 0⟩, offsides := ⟨0, 0⟩, passes := ⟨0, 0⟩,
    passAccuracy := ⟨0, 0⟩ }

/-- `MatchState` (match/match-state.ts).  `half` is `1 | 2 | 3 | 4` in the
source and is modelled as ℕ.  The per-team tactical-state map is not
modelled: no operation embedded here reads it. -/
structure MatchState where
  gameState : GameState
  gameSpeed : ℚ
  gameTime : ℚ
  half : ℕ
  score : SidePair ℕ
  possession : TeamSide
  possessionStats : SidePair ℚ
  lastTouchTeam : TeamSide
  gameEvents : List GameEvent
  offsideLine : SidePair ℚ
  setpiece : SetPiece
  cards : CardLists
  substitutionsLeft : SidePair ℕ
  injuries : List Int
  stats : MatchStats
  stoppageTime : ℚ
  stoppageTimeAdded : ℚ
deriving DecidableEq, Repr

/-- The field initialisers of `class MatchState` (a fresh `new MatchState()`). -/
def initialMatchState : MatchState :=
  { gameState := .idle, gameSpeed := 1, gameTime := 0, half := 1,
    score := ⟨0, 0⟩, possession := .home, possessionStats := ⟨50, 50⟩,
    lastTouchTeam := .home, gameEvents := [], offsideLine := ⟨0, 0⟩,
    setpiece := ⟨none, none, none⟩, cards := ⟨[], []⟩,
    substitutionsLeft := ⟨3, 3⟩, injuries := [], stats := zeroStats,
    stoppageTime := 0, stoppageTimeAdded := 0 }

/-- match-state.ts `reset()` (note: `gameSpeed` and `possessionStats` are
not reset by the source). -/
def MatchState.reset (s : MatchState) : MatchState :=
  { s with gameState := .idle, gameTime := 0, half := 1, score := ⟨0, 0⟩,
           possession := .home, lastTouchTeam := .home, gameEvents := [],
           offsideLine := ⟨0, 0⟩, setpiece := ⟨none, none, none⟩,
           cards := ⟨[], []⟩, substitutionsLeft := ⟨3, 3⟩, injuries := [],
           stoppageTime := 0, stoppageTimeAdded := 0, stats := zeroStats }

/-- match-state.ts `addEvent(event)`: append the event, then update score,
stats and card lists according to the event type. -/
def MatchState.addEvent (s : MatchState) (event : GameEvent) : MatchState :=
  let s := { s with gameEvents := s.gameEvents ++ [event] }
  match event.type with
  | .goal =>
    if event.teamId = some "home" then
      { s with score := { s.score with home := s.score.home + 1 } }
    else if event.teamId = some "away" then
      { s with score := { s.score with away := s.score.away + 1 } }
    else s
  | .shot =>
    if event.teamId = some "home" then
      { s with stats := { s.stats with shots := { s.stats.shots with home := s.stats.shots.home + 1 } } }
    else if event.teamId = some "away" then
      { s with stats := { s.stats with shots := { s.stats.shots with away := s.stats.shots.away + 1 } } }
    else s
  | .corner =>
    if event.teamId = some "home" then
      { s with stats := { s.stats with corners := { s.stats.corners with home := s.stats.corners.home + 1 } } }
    else if event.teamId = some "away" then
      { s with stats := { s.stats with corners := { s.stats.corners with away := s.stats.corners.away + 1 } } }
    else s
  | .foul =>
    if event.teamId = some "home" then
      { s with stats := { s.stats with fouls := { s.stats.fouls with home := s.stats.fouls.home + 1 } } }
    else if event.teamId = some "away" then
      { s with stats := { s.stats with fouls := { s.stats.fouls with away := s.stats.fouls.away + 1 } } }
    else s
  | .yellowcard =>
    match event.player1Id with
    | some pid =>
      let s := { s with cards := { s.cards with yellow := s.cards.yellow ++ [pid] } }
      if event.teamId = some "home" then
        { s with stats := { s.stats with yellowCards := { s.stats.yellowCards with home := s.stats.yellowCards.home + 1 } } }
      else if event.teamId = some "away" then
        { s with stats := { s.stats with yellowCards := { s.stats.yellowCards with away := s.stats.yellowCards.away + 1 } } }
      else s
    | none => s
  | .redcard =>
    match event.player1Id with
    | some pid =>
      let s := { s with cards := { s.cards with red := s.cards.red ++ [pid] } }
      if event.teamId = some "home" then
        { s with stats := { s.stats with redCards := { s.stats.redCards with home := s.stats.redCards.home + 1 } } }
      else if event.teamId = some "away" then
        { s with stats := { s.stats with redCards := { s.stats.redCards with away := s.stats.redCards.away + 1 } } }
      else s
    | none => s
  | .offside =>
    if event.teamId = some "home" then
      { s with stats := { s.stats with offsides := { s.stats.offsides with home := s.stats.offsides.home + 1 } } }
    else if event.teamId = some "away" then
      { s with stats := { s.stats with offsides := { s.stats.offsides with away := s.stats.offsides.away + 1 } } }
    else s
  | _ => s

/-- The JavaScript `%` operator on the nonnegative numbers used by the
clock code (for a nonnegative dividend and positive divisor `a % b` is
`a - b * floor(a / b)`). -/
def jsMod (a b : ℚ) : ℚ :=
  a - b * (⌊a / b⌋ : ℚ)

/-- The JavaScript `Math.round` (round half toward positive infinity). -/
def jsRound (q : ℚ) : ℤ :=
  ⌊q + 1 / 2⌋

/-- match-state.ts `updatePossessionStats`.  In the degenerate case where
both accumulators are zero the source divides by zero (yielding `NaN`
percentages); here `x / 0 = 0`.  The `half`-related claims below do not
depend on the percentages. -/
def MatchState.updatePossessionStats (s : MatchState) (currentPossessionTeam : TeamSide)
    (deltaTime : ℚ) : MatchState :=
  if s.gameTime > 0 then
    let stats :=
      if currentPossessionTeam = .home then
        { s.stats with possession := { s.stats.possession with home := s.stats.possession.home + deltaTime } }
      else
        { s.stats with possession := { s.stats.possession with away := s.stats.possession.away + deltaTime } }
    let totalPossessionTime := stats.possession.home + stats.possession.away
    { s with stats := stats,
             possessionStats :=
               ⟨(jsRound (stats.possession.home / totalPossessionTime * 100) : ℚ),
                (jsRound (stats.possession.away / totalPossessionTime * 100) : ℚ)⟩ }
  else s

/-- match-state.ts `isExtraTime`. -/
def MatchState.isExtraTime (s : MatchState) : Bool :=
  decide (s.half = 3 ∨ s.half = 4)

/-- match-state.ts `isTimeForHalfEnd`: both branches require
`gameTime % 45 >= 45` together with `stoppageTime >= stoppageTimeAdded`. -/
def MatchState.isTimeForHalfEnd (s : MatchState) : Bool :=
  let halfDuration : ℚ := 45
  let currentHalfTime := jsMod s.gameTime halfDuration
  if s.half = 1 ∨ s.half = 3 then
    decide (currentHalfTime ≥ halfDuration ∧ s.stoppageTime ≥ s.stoppageTimeAdded)
  else if s.half = 2 ∨ s.half = 4 then
    decide (currentHalfTime ≥ halfDuration ∧ s.stoppageTime ≥ s.stoppageTimeAdded)
  else false

/-- match-state.ts `advanceToNextHalf`: only when `half < 4`, increment the
half, clear stoppage time, and install a centre-spot kickoff (for away when
the incremented half is 2, else for home). -/
def MatchState.advanceToNextHalf (s : MatchState) : MatchState :=
  if s.half < 4 then
    let newHalf := s.half + 1
    { s with half := newHalf, stoppageTime := 0, stoppageTimeAdded := 0,
             setpiece := ⟨some .kickoff,
                          some (if newHalf = 2 then .away else .home),
                          some ⟨50, 50⟩⟩ }
  else s

/-! ## Teams (core/team.ts) -/

/-- `TacticStyle` from utils/types.ts. -/
inductive TacticStyle
  | possession
  | counter
  | direct
  | wing
  | pressing
deriving DecidableEq, Repr

/-- `DefensiveStyle` from utils/types.ts. -/
inductive DefensiveStyle
  | highpress
  | midblock
  | lowblock
  | manmarking
  | zonalmarking
deriving DecidableEq, Repr

/-- The `passingStyle` union `"short" | "mixed" | "long"`. -/
inductive PassingStyle
  | short
  | mixed
  | long
deriving DecidableEq, Repr

/-- `FormationType` from utils/types.ts
(`f442` stands for `"4-4-2"`, and so on; `f451` for `"4-5-1"`). -/
inductive FormationType
  | f442
  | f433
  | f4231
  | f352
  | f532
  | f451
deriving DecidableEq, Repr

/-- The `tactics` record of a team. -/
structure TeamTactics where
  style : TacticStyle
  defensiveStyle : DefensiveStyle
  pressingIntensity : ℚ
  defensiveLineHeight : ℚ
  width : ℚ
  tempo : ℚ
  passingStyle : PassingStyle
deriving DecidableEq, Repr

/-- `TeamEntity` (core/team.ts).  `formationPositions` is the
`Record<PlayerId, Vector2D>` modelled as an association list with
record-assignment (overwrite-or-append) update. -/
structure TeamEntity where
  id : String
  name : String
  color : String
  secondaryColor : String
  players : List PlayerEntity
  formation : FormationType
  tactics : TeamTactics
  formationPositions : List (Int × Vector2D)
deriving DecidableEq, Repr

/-- `new TeamEntity(id, name, color, secondaryColor, formation, tactics)`:
players and formation positions start empty. -/
def newTeamEntity (id name color secondaryColor : String) (formation : FormationType)
    (tactics : TeamTactics) : TeamEntity :=
  { id := id, name := name, color := color, secondaryColor := secondaryColor,
    players := [], formation := formation, tactics := tactics,
    formationPositions := [] }

/-- Record assignment `formationPositions[id] = pos`. -/
def setFP (fp : List (Int × Vector2D)) (id : Int) (pos : Vector2D) :
    List (Int × Vector2D) :=
  match fp with
  | [] => [(id, pos)]
  | (k, v) :: rest =>
    if k = id then (k, pos) :: rest else (k, v) :: setFP rest id pos

/-- Record lookup `formationPositions[id]`. -/
def lookupFP (fp : List (Int × Vector2D)) (id : Int) : Option Vector2D :=
  match fp with
  | [] => none
  | (k, v) :: rest => if k = id then some v else lookupFP rest id

/-- core/team.ts `addPlayer`. -/
def TeamEntity.addPlayer (t : TeamEntity) (player : PlayerEntity) : TeamEntity :=
  { t with players := t.players ++ [player] }

/-- core/team.ts `getPlayerById`. -/
def TeamEntity.getPlayerById (t : TeamEntity) (id : Int) : Option PlayerEntity :=
  t.players.find? fun p => decide (p.id = id)

/-- core/team.ts `getAvailablePlayers` (not injured, not sent off). -/
def TeamEntity.getAvailablePlayers (t : TeamEntity) : List PlayerEntity :=
  t.players.filter fun p => !p.injured && !p.redCard

/-- core/team.ts `resetPositions`: move every player (and their target) to
their formation position, when one exists. -/
def TeamEntity.resetPositions (t : TeamEntity) : TeamEntity :=
  { t with players := t.players.map fun p =>
      match lookupFP t.formationPositions p.id with
      | some formationPosition =>
        { p with position := formationPosition, targetPosition := formationPosition }
      | none => p }

/-- core/team.ts `adjustFormationWidth`: push each slot's `y` away from the
centre in proportion to the width factor, clamped to `[5, 95]`. -/
def TeamEntity.adjustFormationWidth (t : TeamEntity) (widthFactor : ℚ) : TeamEntity :=
  let center : ℚ := 50
  { t with formationPositions := t.formationPositions.map fun e =>
      let pos := e.2
      let distanceFromCenter := pos.y - center
      let adjustment := distanceFromCenter * (widthFactor / 5)
      let y := center + adjustment
      (e.1, ⟨pos.x, max 5 (min 95 y)⟩) }

/-- core/team.ts `setup442Formation`. -/
def TeamEntity.setup442Formation (t : TeamEntity) (baseX direction width : ℚ) : TeamEntity :=
  let players := t.getAvailablePlayers
  let goalkeeper := players.find? fun p => decide (p.role = .GK)
  let defenders := (players.filter fun p => decide (p.role = .DEF)).take 4
  let midfielders := (players.filter fun p => decide (p.role = .MID)).take 4
  let forwards := (players.filter fun p => decide (p.role = .FWD)).take 2
  let fp := t.formationPositions
  let fp := match goalkeeper with
    | some gk => setFP fp gk.id ⟨baseX - 20 * direction, 50⟩
    | none => fp
  let fp := match defenders with
    | d0 :: d1 :: d2 :: d3 :: _ =>
      let fp := setFP fp d0.id ⟨baseX - 10 * direction, 20⟩
      let fp := setFP fp d1.id ⟨baseX - 10 * direction, 40⟩
      let fp := setFP fp d2.id ⟨baseX - 10 * direction, 60⟩
      setFP fp d3.id ⟨baseX - 10 * direction, 80⟩
    | _ => fp
  let fp := match midfielders with
    | m0 :: m1 :: m2 :: m3 :: _ =>
      let fp := setFP fp m0.id ⟨baseX, 20⟩
      let fp := setFP fp m1.id ⟨baseX, 40⟩
      let fp := setFP fp m2.id ⟨baseX, 60⟩
      setFP fp m3.id ⟨baseX, 80⟩
    | _ => fp
  let fp := match forwards with
    | f0 :: f1 :: _ =>
      let fp := setFP fp f0.id ⟨baseX + 15 * direction, 35⟩
      setFP fp f1.id ⟨baseX + 15 * direction, 65⟩
    | _ => fp
  TeamEntity.adjustFormationWidth { t with formationPositions := fp } width

/-- core/team.ts `setup433Formation`. -/
def TeamEntity.setup433Formation (t : TeamEntity) (baseX direction width : ℚ) : TeamEntity :=
  let players := t.getAvailablePlayers
  let goalkeeper := players.find? fun p => decide (p.role = .GK)
  let defenders := (players.filter fun p => decide (p.role = .DEF)).take 4
  let midfielders := (players.filter fun p => decide (p.role = .MID)).take 3
  let forwards := (players.filter fun p => decide (p.role = .FWD)).take 3
  let fp := t.formationPositions
  let fp := match goalkeeper with
    | some gk => setFP fp gk.id ⟨baseX - 20 * direction, 50⟩
    | none => fp
  let fp := match defenders with
    | d0 :: d1 :: d2 :: d3 :: _ =>
      let fp := setFP fp d0.id ⟨baseX - 10 * direction, 20⟩
      let fp := setFP fp d1.id ⟨baseX - 10 * direction, 40⟩
      let fp := setFP fp d2.id ⟨baseX - 10 * direction, 60⟩
      setFP fp d3.id ⟨baseX - 10 * direction, 80⟩
    | _ => fp
  let fp := match midfielders with
    | m0 :: m1 :: m2 :: _ =>
      let fp := setFP fp m0.id ⟨baseX, 30⟩
      let fp := setFP fp m1.id ⟨baseX, 50⟩
      setFP fp m2.id ⟨baseX, 70⟩
    | _ => fp
  let fp := match forwards with
    | f0 :: f1 :: f2 :: _ =>
      let fp := setFP fp f0.id ⟨baseX + 15 * direction, 25⟩
      let fp := setFP fp f1.id ⟨baseX + 15 * direction, 50⟩
      setFP fp f2.id ⟨baseX + 15 * direction, 75⟩
    | _ => fp
  TeamEntity.adjustFormationWidth { t with formationPositions := fp } width

/-- core/team.ts `setup4231Formation`. -/
def TeamEntity.setup4231Formation (t : TeamEntity) (baseX direction width : ℚ) : TeamEntity :=
  let players := t.getAvailablePlayers
  let goalkeeper := players.find? fun p => decide (p.role = .GK)
  let defenders := (players.filter fun p => decide (p.role = .DEF)).take 4
  let midfielders := (players.filter fun p => decide (p.role = .MID)).take 5
  let forwards := (players.filter fun p => decide (p.role = .FWD)).take 1
  let fp := t.formationPositions
  let fp := match goalkeeper with
    | some gk => setFP fp gk.id ⟨baseX - 20 * direction, 50⟩
    | none => fp
  let fp := match defenders with
    | d0 :: d1 :: d2 :: d3 :: _ =>
      let fp := setFP fp d0.id ⟨baseX - 10 * direction, 20⟩
      let fp := setFP fp d1.id ⟨baseX - 10 * direction, 40⟩
      let fp := setFP fp d2.id ⟨baseX - 10 * direction, 60⟩
      setFP fp d3.id ⟨baseX - 10 * direction, 80⟩
    | _ => fp
  let fp := match midfielders with
    | m0 :: m1 :: _ =>
      let fp := setFP fp m0.id ⟨baseX - 5 * direction, 35⟩
      setFP fp m1.id ⟨baseX - 5 * direction, 65⟩
    | _ => fp
  let fp := match midfielders with
    | _ :: _ :: m2 :: m3 :: m4 :: _ =>
      let fp := setFP fp m2.id ⟨baseX + 5 * direction, 30⟩
      let fp := setFP fp m3.id ⟨baseX + 5 * direction, 50⟩
      setFP fp m4.id ⟨baseX + 5 * direction, 70⟩
    | _ => fp
  let fp := match forwards with
    | f0 :: _ => setFP fp f0.id ⟨baseX + 15 * direction, 50⟩
    | _ => fp
  TeamEntity.adjustFormationWidth { t with formationPositions := fp } width

/-- core/team.ts `setup352Formation`. -/
def TeamEntity.setup352Formation (t : TeamEntity) (baseX direction width : ℚ) : TeamEntity :=
  let players := t.getAvailablePlayers
  let goalkeeper := players.find? fun p => decide (p.role = .GK)
  let defenders := (players.filter fun p => decide (p.role = .DEF)).take 3
  let midfielders := (players.filter fun p => decide (p.role = .MID)).take 5
  let forwards := (players.filter fun p => decide (p.role = .FWD)).take 2
  let fp := t.formationPositions
  let fp := match goalkeeper with
    | some gk => setFP fp gk.id ⟨baseX - 20 * direction, 50⟩
    | none => fp
  let fp := match defenders with
    | d0 :: d1 :: d2 :: _ =>
      let fp := setFP fp d0.id ⟨baseX - 10 * direction, 30⟩
      let fp := setFP fp d1.id ⟨baseX - 10 * direction, 50⟩
      setFP fp d2.id ⟨baseX - 10 * direction, 70⟩
    | _ => fp
  let fp := match midfielders with
    | m0 :: m1 :: m2 :: m3 :: m4 :: _ =>
      let fp := setFP fp m0.id ⟨baseX - 5 * direction, 15⟩
      let fp := setFP fp m1.id ⟨baseX - 5 * direction, 85⟩
      let fp := setFP fp m2.id ⟨baseX, 30⟩
      let fp := setFP fp m3.id ⟨baseX, 50⟩
      setFP fp m4.id ⟨baseX, 70⟩
    | _ => fp
  let fp := match forwards with
    | f0 :: f1 :: _ =>
      let fp := setFP fp f0.id ⟨baseX + 15 * direction, 35⟩
      setFP fp f1.id ⟨baseX + 15 * direction, 65⟩
    | _ => fp
  TeamEntity.adjustFormationWidth { t with formationPositions := fp } width

/-- core/team.ts `setup532Formation`. -/
def TeamEntity.setup532Formation (t : TeamEntity) (baseX direction width : ℚ) : TeamEntity :=
  let players := t.getAvailablePlayers
  let goalkeeper := players.find? fun p => decide (p.role = .GK)
  let defenders := (players.filter fun p => decide (p.role = .DEF)).take 5
  let midfielders := (players.filter fun p => decide (p.role = .MID)).take 3
  let forwards := (players.filter fun p => decide (p.role = .FWD)).take 2
  let fp := t.formationPositions
  let fp := match goalkeeper with
    | some gk => setFP fp gk.id ⟨baseX - 20 * direction, 50⟩
    | none => fp
  let fp := match defenders with
    | d0 :: d1 :: d2 :: d3 :: d4 :: _ =>
      let fp := setFP fp d0.id ⟨baseX - 10 * direction, 30⟩
      let fp := setFP fp d1.id ⟨baseX - 10 * direction, 50⟩
      let fp := setFP fp d2.id ⟨baseX - 10 * direction, 70⟩
      let fp := setFP fp d3.id ⟨baseX - 5 * direction, 15⟩
      setFP fp d4.id ⟨baseX - 5 * direction, 85⟩
    | _ => fp
  let fp := match midfielders with
    | m0 :: m1 :: m2 :: _ =>
      let fp := setFP fp m0.id ⟨baseX, 30⟩
      let fp := setFP fp m1.id ⟨baseX, 50⟩
      setFP fp m2.id ⟨baseX, 70⟩
    | _ => fp
  let fp := match forwards with
    | f0 :: f1 :: _ =>
      let fp := setFP fp f0.id ⟨baseX + 15 * direction, 35⟩
      setFP fp f1.id ⟨baseX + 15 * direction, 65⟩
    | _ => fp
  TeamEntity.adjustFormationWidth { t with formationPositions := fp } width

/-- core/team.ts `setupFormation`: clear the positions, dispatch by
formation (the source switch has no `"4-5-1"` case, so that formation
leaves the cleared positions empty), then apply them to the players. -/
def TeamEntity.setupFormation (t : TeamEntity) (isHome : Bool) : TeamEntity :=
  let baseX : ℚ := if isHome then 30 else 70
  let direction : ℚ := if isHome then 1 else -1
  let width := t.tactics.width * (3 / 5) + 5
  let t := { t with formationPositions := [] }
  let t :=
    match t.formation with
    | .f442 => t.setup442Formation baseX direction width
    | .f433 => t.setup433Formation baseX direction width
    | .f4231 => t.setup4231Formation baseX direction width
    | .f352 => t.setup352Formation baseX direction width
    | .f532 => t.setup532Formation baseX direction width
    | .f451 => t
  t.resetPositions

/-! ## Team tactical analysis (ai/team-behaviors.ts) -/

/-- `TeamBehaviorType` from ai/team-behaviors.ts. -/
inductive TeamBehaviorType
  | highPress
  | midBlock
  | lowBlock
  | possession
  | counterAttack
  | widePlay
  | narrowPlay
  | setpieceAttack
  | setpieceDefense
  | parkTheBus
  | allOutAttack
deriving DecidableEq, Repr

/-- ai/team-behaviors.ts `analyzeTacticalSituation`: a pure decision table
over (team, opposition, matchState, ball).  String comparisons of the
source (`team.id === "home"`, `setpiece.team === team.id`,
`ball.lastTouchTeam === team.id`) compare the team's string id against the
side strings.  The three late-game conditionals are encoded so that an
(impossible) fall-through of all of them continues with the possession
branch exactly as the source would. -/
def analyzeTacticalSituation (team _opposition : TeamEntity) (matchState : MatchState)
    (ball : BallEntity) : TeamBehaviorType :=
  let scoreLineDifference : ℤ :=
    if team.id = "home" then (matchState.score.home : ℤ) - (matchState.score.away : ℤ)
    else (matchState.score.away : ℤ) - (matchState.score.home : ℤ)
  let matchTimeRemaining : ℚ := 90 - matchState.gameTime
  let isWinning := decide (scoreLineDifference > 0)
  let isLosing := decide (scoreLineDifference < 0)
  let isTied := decide (scoreLineDifference = 0)
  let ballInOurHalf :=
    (decide (team.id = "home") && decide (ball.position.x < 50)) ||
    (decide (team.id = "away") && decide (ball.position.x > 50))
  let hasSetPiece := decide (matchState.setpiece.type ≠ none)
  if hasSetPiece then
    let isOurSetPiece :=
      match matchState.setpiece.team with
      | some t => decide (sideStr t = team.id)
      | none => false
    if isOurSetPiece then .setpieceAttack else .setpieceDefense
  else if decide (matchTimeRemaining < 10) && isWinning then .parkTheBus
  else if decide (matchTimeRemaining < 10) && isLosing then .allOutAttack
  else if decide (matchTimeRemaining < 10) && isTied then .midBlock
  else if ball.possessor.isSome && decide (sideStr ball.lastTouchTeam = team.id) then
    match team.tactics.style with
    | .possession => .possession
    | .counter => if ballInOurHalf then .counterAttack else .possession
    | .direct => .widePlay
    | .wing => .widePlay
    | .pressing => if isLosing then .allOutAttack else .possession
  else
    match team.tactics.defensiveStyle with
    | .highpress => .highPress
    | .midblock => .midBlock
    | .lowblock => .lowBlock
    | .manmarking => if ballInOurHalf then .midBlock else .lowBlock
    | .zonalmarking => if ballInOurHalf then .midBlock else .lowBlock

/-! ## Substitutions (tactics/substitution-system.ts,
bundled in core/team.ts) -/

/-- `SubstitutionRequest`. -/
structure SubstitutionRequest where
  team : TeamSide
  playerOut : Int
  playerIn : Int
deriving DecidableEq, Repr

/-- The `{ success, message, updatedPlayers? }` result of `makeSubstitution`. -/
structure SubstitutionResult where
  success : Bool
  message : String
  updatedPlayers : Option (List PlayerEntity)
deriving DecidableEq, Repr

/-- Result of `makeSubstitution` together with the two pieces of state the
method mutates: `this.benchPlayers[request.team]` and the team's `players`
list. -/
structure SubstitutionOutcome where
  result : SubstitutionResult
  bench : List PlayerEntity
  team : TeamEntity
deriving DecidableEq, Repr

/-- The model of `Array.prototype.findIndex` (`none` for `-1`). -/
def findIndex (pred : PlayerEntity → Bool) : List PlayerEntity → Option ℕ
  | [] => none
  | x :: xs => if pred x then some 0 else (findIndex pred xs).map (· + 1)

/-- `SubstitutionSystem.makeSubstitution`: find the outgoing player among
the active players and the incoming player on the bench; on success the
incoming player takes over the outgoing player's position and array slot,
the outgoing player takes the bench slot, and the team's roster entry is
replaced.  Failures are structured results, never thrown. -/
def makeSubstitution (request : SubstitutionRequest) (bench : List PlayerEntity)
    (homeTeam awayTeam : TeamEntity) (activePlayers : List PlayerEntity) :
    SubstitutionOutcome :=
  let team := if request.team = .home then homeTeam else awayTeam
  match findIndex (fun p => decide (p.team = request.team ∧ p.id = request.playerOut))
      activePlayers with
  | none =>
    { result := { success := false,
                  message := "Player to substitute out not found on the field",
                  updatedPlayers := none },
      bench := bench, team := team }
  | some playerOutIndex =>
    match findIndex (fun p => decide (p.id = request.playerIn)) bench with
    | none =>
      { result := { success := false,
                    message := "Player to substitute in not found on the bench",
                    updatedPlayers := none },
        bench := bench, team := team }
    | some playerInIndex =>
      let playerOut := (activePlayers.get? playerOutIndex).getD default
      let playerIn := (bench.get? playerInIndex).getD default
      let playerIn :=
        { playerIn with position := playerOut.position,
                        targetPosition := playerOut.targetPosition }
      let updatedPlayers := activePlayers.set playerOutIndex playerIn
      let newBench := bench.take playerInIndex ++ [playerOut] ++ bench.drop (playerInIndex + 1)
      let newTeam :=
        { team with players := team.players.map fun p =>
            if p.id = playerOut.id then playerIn else p }
      { result := { success := true,
                    message := "Substitution made: " ++ playerIn.name ++ " replaces "
                      ++ playerOut.name,
                    updatedPlayers := some updatedPlayers },
        bench := newBench, team := newTeam }

/-! ## Match engine (match/match-engine.ts) -/

/-- `PlayerData` from utils/types.ts. -/
structure PlayerData where
  id : Int
  name : String
  position : Vector2D
  role : PlayerRole
  attributes : PlayerAttributes
  number : ℕ
deriving DecidableEq, Repr

/-- `TeamData` from utils/types.ts. -/
structure TeamData where
  id : String
  name : String
  color : String
  secondaryColor : String
  players : List PlayerData
  formation : FormationType
  tactics : TeamTactics
deriving DecidableEq, Repr

/-- `new PlayerEntity(id, name, team, position, role, attributes, number)`:
target starts at the position, fatigue at 0, no cards, not injured. -/
def newPlayerEntity (team : TeamSide) (d : PlayerData) : PlayerEntity :=
  { id := d.id, name := d.name, team := team, role := d.role,
    position := d.position, targetPosition := d.position,
    attributes := d.attributes, fatigue := 0, injured := false,
    redCard := false }

/-- The engine state: match state, the two teams, the flat player list and
the ball (match/match-engine.ts fields; the timer handle is not state of
the simulation). -/
structure MatchEngine where
  matchState : MatchState
  homeTeam : TeamEntity
  awayTeam : TeamEntity
  players : List PlayerEntity
  ball : BallEntity
deriving Repr

/-- `new BallEntity(position)`. -/
def newBallEntity (position : Vector2D) : BallEntity :=
  { position := position, velocity := ⟨0, 0⟩, possessor := none,
    lastTouchTeam := .home, inAir := false, height := 0 }

/-- The `MatchEngine` constructor: fresh match state, two placeholder
teams, a centred ball. -/
def newMatchEngine : MatchEngine :=
  { matchState := initialMatchState,
    homeTeam := newTeamEntity "" "" "" "" .f442
      ⟨.possession, .midblock, 5, 5, 5, 5, .mixed⟩,
    awayTeam := newTeamEntity "" "" "" "" .f442
      ⟨.counter, .lowblock, 5, 3, 5, 7, .short⟩,
    players := [], ball := newBallEntity ⟨50, 50⟩ }

/-- match-engine.ts `resetGame`: reset the match state, reapply formation
positions, recentre the ball. -/
def MatchEngine.resetGame (e : MatchEngine) : MatchEngine :=
  { e with matchState := e.matchState.reset,
           homeTeam := e.homeTeam.resetPositions,
           awayTeam := e.awayTeam.resetPositions,
           ball := ({ e.ball with position := ⟨50, 50⟩, lastTouchTeam := .home
                    }).setPossessor none }

/-- match-engine.ts `initialize(homeTeamData, awayTeamData)`: construct both
teams and all players from the roster data, centre the ball, set up the
formations and reset the game state.  There is no validation of the roster
shape anywhere on this path. -/
def MatchEngine.initFromData (e : MatchEngine) (homeTeamData awayTeamData : TeamData) :
    MatchEngine :=
  let homeTeam := newTeamEntity homeTeamData.id homeTeamData.name homeTeamData.color
    homeTeamData.secondaryColor homeTeamData.formation homeTeamData.tactics
  let awayTeam := newTeamEntity awayTeamData.id awayTeamData.name awayTeamData.color
    awayTeamData.secondaryColor awayTeamData.formation awayTeamData.tactics
  let homePlayers := homeTeamData.players.map (newPlayerEntity .home)
  let awayPlayers := awayTeamData.players.map (newPlayerEntity .away)
  let homeTeam := homePlayers.foldl TeamEntity.addPlayer homeTeam
  let awayTeam := awayPlayers.foldl TeamEntity.addPlayer awayTeam
  let ball := { newBallEntity ⟨50, 50⟩ with lastTouchTeam := TeamSide.home }
  let homeTeam := homeTeam.setupFormation true
  let awayTeam := awayTeam.setupFormation false
  MatchEngine.resetGame
    { e with homeTeam := homeTeam, awayTeam := awayTeam,
             players := homePlayers ++ awayPlayers, ball := ball }

/-- match-engine.ts `getHalfName`. -/
def getHalfName (half : ℕ) : String :=
  if half = 1 then "first half"
  else if half = 2 then "second half"
  else if half = 3 then "first half of extra time"
  else if half = 4 then "second half of extra time"
  else "half"

/-- match-engine.ts `setupKickoff`: centre the ball, clear possession, log
a kickoff event for the side determined by half parity, install the kickoff
set piece and reset positions. -/
def MatchEngine.setupKickoff (e : MatchEngine) : MatchEngine :=
  let ball := ({ e.ball with position := ⟨50, 50⟩ }).setPossessor none
  let kickoffTeam : TeamSide := if e.matchState.half % 2 = 1 then .home else .away
  let kickoffEvent : GameEvent :=
    { type := .kickoff, time := e.matchState.gameTime,
      message :=
        (if kickoffTeam = .home then e.homeTeam.name else e.awayTeam.name)
          ++ " kicks off"
          ++ (if e.matchState.half > 1 then " the " ++ getHalfName e.matchState.half else ""),
      teamId := some (sideStr kickoffTeam) }
  let ms := e.matchState.addEvent kickoffEvent
  let ms := { ms with setpiece := ⟨some .kickoff, some kickoffTeam, some ⟨50, 50⟩⟩ }
  { e with ball := ball, matchState := ms,
           homeTeam := e.homeTeam.resetPositions,
           awayTeam := e.awayTeam.resetPositions }

/-- match-engine.ts `startGame` (minus the timer): from any non-playing
state switch to `playing`, setting up a kickoff when at time 0 or coming
out of halftime. -/
def MatchEngine.startGame (e : MatchEngine) : MatchEngine :=
  if e.matchState.gameState ≠ .playing then
    let isHalftime := e.matchState.gameState = GameState.halftime
    let isKickoff := e.matchState.gameTime = 0
    let e := { e with matchState := { e.matchState with gameState := .playing } }
    if isKickoff ∨ isHalftime then e.setupKickoff else e
  else e

/-- match-engine.ts `handleHalfEnd`: full time after half 2 or 4, otherwise
halftime followed by advancing the half and a new kickoff. -/
def MatchEngine.handleHalfEnd (e : MatchEngine) : MatchEngine :=
  if e.matchState.half = 2 then
    let ev : GameEvent :=
      { type := .fulltime, time := e.matchState.gameTime,
        message := "Full time! " ++ e.homeTeam.name ++ " "
          ++ toString e.matchState.score.home ++ " - "
          ++ toString e.matchState.score.away ++ " " ++ e.awayTeam.name }
    { e with matchState :=
        { e.matchState with gameState := .fulltime }.addEvent ev }
  else if e.matchState.half = 4 then
    let ev : GameEvent :=
      { type := .fulltime, time := e.matchState.gameTime,
        message := "End of extra time! " ++ e.homeTeam.name ++ " "
          ++ toString e.matchState.score.home ++ " - "
          ++ toString e.matchState.score.away ++ " " ++ e.awayTeam.name }
    { e with matchState :=
        { e.matchState with gameState := .fulltime }.addEvent ev }
  else
    let ev : GameEvent :=
      { type := .halftime, time := e.matchState.gameTime,
        message := "End of " ++ getHalfName e.matchState.half ++ "! "
          ++ e.homeTeam.name ++ " " ++ toString e.matchState.score.home ++ " - "
          ++ toString e.matchState.score.away ++ " " ++ e.awayTeam.name }
    let ms := ({ e.matchState with gameState := .halftime }.addEvent ev).advanceToNextHalf
    MatchEngine.setupKickoff { e with matchState := ms }

/-- The clock fragment of match-engine.ts `update` (lines 230-245):
advance `gameTime` by `scaledDelta * 2` while playing, accrue stoppage time
once `gameTime % 45 >= 45`, and call `handleHalfEnd` when
`isTimeForHalfEnd()` holds.  The remainder of `update` (entity updates,
team/player AI, rules checks) never writes `matchState.gameState`, so this
fragment carries the full game-phase transition behaviour of a tick. -/
def MatchEngine.clockStep (e : MatchEngine) (scaledDelta : ℚ) : MatchEngine :=
  if e.matchState.gameState = .playing then
    let s := { e.matchState with gameTime := e.matchState.gameTime + scaledDelta * 2 }
    let halfTimeElapsed := jsMod s.gameTime 45
    let s :=
      if halfTimeElapsed ≥ 45 then
        { s with stoppageTime := s.stoppageTime + scaledDelta * 2 }
      else s
    let e := { e with matchState := s }
    if s.isTimeForHalfEnd then e.handleHalfEnd else e
  else e

/-- match-engine.ts `handleBallOut`: unless the same set piece is already
active, log the event, install the set piece, move the ball to the restart
spot, clear possession and zero the velocity. -/
def MatchEngine.handleBallOut (e : MatchEngine) (type : EventType) (team : TeamSide)
    (position : Vector2D) : MatchEngine :=
  if e.matchState.setpiece.type = some type ∧ e.matchState.setpiece.team = some team ∧
      (e.matchState.setpiece.position.map Vector2D.x) = some position.x ∧
      (e.matchState.setpiece.position.map Vector2D.y) = some position.y then
    e
  else
    let event : GameEvent :=
      { type := type, time := e.matchState.gameTime,
        message :=
          (if type = .corner then "Corner"
           else if type = .goalkick then "Goal kick" else "Throw-in")
          ++ " for "
          ++ (if team = .home then e.homeTeam.name else e.awayTeam.name),
        teamId := some (sideStr team), position := some position }
    let ms := e.matchState.addEvent event
    let ms := { ms with setpiece := ⟨some type, some team, some position⟩ }
    let ball := ({ e.ball with position := position }).setPossessor none
    let ball := { ball with velocity := ⟨0, 0⟩ }
    { e with matchState := ms, ball := ball }

/-- match-engine.ts `handleGoal(team)`: log a goal event (via `addEvent`),
increment the scoring team's score, install a kickoff for the conceding
side, reset positions and recentre the ball.  The randomly chosen scorer
and optional assister are passed in explicitly. -/
def MatchEngine.handleGoal (e : MatchEngine) (team : TeamSide) (scorer : PlayerEntity)
    (assister : Option PlayerEntity) : MatchEngine :=
  let goalEvent : GameEvent :=
    { type := .goal, time := e.matchState.gameTime,
      message := "GOAL! " ++ scorer.name ++ " scores for "
        ++ (if team = .home then e.homeTeam.name else e.awayTeam.name)
        ++ (match assister with
            | some a => " assisted by " ++ a.name
            | none => "")
        ++ "!",
      teamId := some (sideStr team), player1Id := some scorer.id,
      player2Id := assister.map PlayerEntity.id }
  let ms := e.matchState.addEvent goalEvent
  let ms :=
    if team = .home then { ms with score := { ms.score with home := ms.score.home + 1 } }
    else { ms with score := { ms.score with away := ms.score.away + 1 } }
  let ms :=
    { ms with setpiece := ⟨some .kickoff,
                           some (if team = .home then .away else .home),
                           some ⟨50, 50⟩⟩ }
  { e with matchState := ms,
           homeTeam := e.homeTeam.resetPositions,
           awayTeam := e.awayTeam.resetPositions,
           ball := ({ e.ball with position := ⟨50, 50⟩ }).setPossessor none }

/-- match-engine.ts `setGameSpeed` (clamped to `[0.1, 4]`). -/
def MatchEngine.setGameSpeed (e : MatchEngine) (speed : ℚ) : MatchEngine :=
  { e with matchState := { e.matchState with gameSpeed := max (1 / 10) (min 4 speed) } }

/-! ## Spec-side notions used by the claims -/

/-- Number of `"goal"` events in the log attributed to a side. -/
def goalEventCount (s : MatchState) (side : TeamSide) : ℕ :=
  (s.gameEvents.filter fun ev =>
    decide (ev.type = .goal ∧ ev.teamId = some (sideStr side))).length

/-- The clamp `Math.max(lo, Math.min(hi, x))` as a named operation. -/
def clampQ (lo hi x : ℚ) : ℚ :=
  max lo (min hi x)

/-- The foul-probability threshold the spec states:
`clamp(0.05, 0.8, 0.1 + aggression/10 − tackling/20 + distanceToBall/50)`,
with aggression and tackling the tackler's (fatigue-adjusted) attributes. -/
def foulThreshold (tacklingPlayer : PlayerEntity) (distanceToBall : ℚ) : ℚ :=
  clampQ (1 / 20) (4 / 5)
    (1 / 10 + tacklingPlayer.getEffectiveAttribute .aggression / 10
      - tacklingPlayer.getEffectiveAttribute .tackling / 20 + distanceToBall / 50)

/-- The x-coordinates of the qualifying defenders (role DEF or GK) opposing
the side whose offside line is being computed — exactly the list
`calculateOffsideLine` builds for that side. -/
def qualifyingDefenderXs (players : List PlayerEntity) (attackingSide : TeamSide) : List ℚ :=
  ((players.filter fun p => decide (p.team = attackingSide.other)).filter fun p =>
    decide (p.role = .DEF ∨ p.role = .GK)).map fun p => p.position.x

/-- `a` lies strictly beyond `b` in `side`'s attacking direction
(home attacks toward `x = 100`, away toward `x = 0`). -/
def moreAdvanced (side : TeamSide) (a b : ℚ) : Bool :=
  match side with
  | .home => decide (b < a)
  | .away => decide (a < b)

/-- `a` lies at least as far as `b` in `side`'s attacking direction. -/
def atLeastAsAdvanced (side : TeamSide) (a b : ℚ) : Bool :=
  match side with
  | .home => decide (b ≤ a)
  | .away => decide (a ≤ b)

/-- Spec §7's roster-shape validity: exactly one goalkeeper and outfield
role counts summing to 10 (eleven players in total). -/
def rosterShapeOk (t : TeamData) : Bool :=
  decide ((t.players.countP fun p => decide (p.role = .GK)) = 1 ∧
    (t.players.countP fun p => decide (p.role ≠ .GK)) = 10)

/-! ## Helper lemmas -/

/-- The remainder `jsMod a b` is below `b` whenever `b > 0`; in particular
`gameTime % 45` can never reach 45. -/
theorem jsMod_lt (a : ℚ) {b : ℚ} (hb : 0 < b) : jsMod a b < b := by
  have h := Int.lt_floor_add_one (a / b)
  have h2 : a < (⌊a / b⌋ + 1 : ℚ) * b := by
    have := (div_lt_iff₀ hb).mp h
    push_cast at this ⊢
    linarith
  unfold jsMod
  nlinarith [h2]

/-- `isTimeForHalfEnd` is identically false: every branch requires
`gameTime % 45 ≥ 45`, which never holds. -/
theorem isTimeForHalfEnd_eq_false (s : MatchState) : s.isTimeForHalfEnd = false := by
  have h : jsMod s.gameTime 45 < 45 := jsMod_lt s.gameTime (by norm_num)
  unfold MatchState.isTimeForHalfEnd
  split
  · simp only [decide_eq_false_iff_not, not_and]
    intro h1
    exact absurd h1 (not_le.mpr h)
  · split
    · simp only [decide_eq_false_iff_not, not_and]
      intro h1
      exact absurd h1 (not_le.mpr h)
    · rfl

/-- `clockStep` can never change the game phase (`handleHalfEnd` is dead
code behind the always-false `isTimeForHalfEnd`). -/
theorem clockStep_gameState (e : MatchEngine) (d : ℚ) :
    (e.clockStep d).matchState.gameState = e.matchState.gameState := by
  unfold MatchEngine.clockStep
  split
  · simp only [isTimeForHalfEnd_eq_false, Bool.false_eq_true, if_false]
    split <;> rfl
  · rfl

/-! ## C1 -/

/-- C1: the claim "the simulation eventually reaches phase fulltime" is
violated by the code: `isTimeForHalfEnd` compares `gameTime % 45` (always
`< 45`) against `45`, so it is identically false, no half ever ends, and
iterating the engine's per-tick clock update from any state — whatever the
tick deltas — never changes the phase, so `"fulltime"` is unreachable from
`"playing"`. -/
theorem fulltime_unreachable :
    (∀ s : MatchState, s.isTimeForHalfEnd = false) ∧
    (∀ (e : MatchEngine) (scaledDelta : ℚ),
      (e.clockStep scaledDelta).matchState.gameState = e.matchState.gameState) ∧
    (∀ (ds : List ℚ) (e : MatchEngine),
      (ds.foldl MatchEngine.clockStep e).matchState.gameState
        = e.matchState.gameState) := by
  refine ⟨isTimeForHalfEnd_eq_false, clockStep_gameState, ?_⟩
  intro ds
  induction ds with
  | nil => intro e; rfl
  | cons d ds ih =>
    intro e
    calc ((d :: ds).foldl MatchEngine.clockStep e).matchState.gameState
        = (e.clockStep d).matchState.gameState := ih (e.clockStep d)
      _ = e.matchState.gameState := clockStep_gameState e d

/-! ## C2 -/

/-- C2: the claim "`handleGoal` increases the scoring team's score by
exactly one (and score equals the goal-event count)" is violated:
`handleGoal` appends one goal event through `addEvent` — whose `goal` case
already increments the score — and then increments the score again, so one
goal adds exactly one event but **two** to the score; from a fresh engine a
single home goal leaves `score.home = 2` against one logged goal event. -/
theorem handleGoal_double_counts :
    (∀ (e : MatchEngine) (team : TeamSide) (scorer : PlayerEntity)
        (assister : Option PlayerEntity),
      goalEventCount (e.handleGoal team scorer assister).matchState team
        = goalEventCount e.matchState team + 1 ∧
      ((e.handleGoal team scorer assister).matchState.score.get team
        = e.matchState.score.get team + 2)) ∧
    ((newMatchEngine.handleGoal .home default none).matchState.score.home = 2 ∧
      goalEventCount (newMatchEngine.handleGoal .home default none).matchState .home
        = 1) := by
  constructor
  · intro e team scorer assister
    cases team <;>
      simp [MatchEngine.handleGoal, MatchState.addEvent, goalEventCount, sideStr,
        SidePair.get, List.filter_append]
  · constructor <;> rfl

/-! ## C3 -/

/-- C3, counterexample: a ball at `(-1, 50)` with `lastTouchTeam = home` is
classified by `isBallOutOfBounds` as a **corner for away at (0, 100)**, not
as the goal-kick for home at `(5, 50)` the claim states. -/
theorem out_of_bounds_home_touch_is_corner :
    isBallOutOfBounds
        { position := ⟨-1, 50⟩, velocity := ⟨0, 0⟩, possessor := none,
          lastTouchTeam := .home, inAir := false, height := 0 }
      = { isOut := true, type := some .corner, team := some .away,
          position := some ⟨0, 100⟩ } ∧
    ¬(isBallOutOfBounds
        { position := ⟨-1, 50⟩, velocity := ⟨0, 0⟩, possessor := none,
          lastTouchTeam := .home, inAir := false, height := 0 }
      = { isOut := true, type := some .goalkick, team := some .home,
          position := some ⟨5, 50⟩ }) := by
  constructor <;> decide

/-- C3, amended: for a ball strictly inside the touchlines, a goal-line
crossing is a corner when the **defending** side last touched (home defends
`x ≤ 0`, away defends `x ≥ 100`) and a goal-kick otherwise, the corner spot
y-edge chosen by `y < 50` (so `(−1, 50)` after home touched ⇒ corner for
away at `(0, 100)`; after away touched ⇒ goal-kick for home at `(5, 50)`;
`(101, 50)` after away touched ⇒ corner for home at `(100, 100)`). -/
theorem goal_line_out_classification (b : BallEntity)
    (hy0 : 0 < b.position.y) (hy100 : b.position.y < 100) :
    (b.position.x ≤ 0 →
      isBallOutOfBounds b =
        if b.lastTouchTeam = .home then
          { isOut := true, type := some .corner, team := some .away,
            position := some ⟨0, if b.position.y < 50 then 0 else 100⟩ }
        else
          { isOut := true, type := some .goalkick, team := some .home,
            position := some ⟨5, 50⟩ }) ∧
    (b.position.x ≥ 100 →
      isBallOutOfBounds b =
        if b.lastTouchTeam = .away then
          { isOut := true, type := some .corner, team := some .home,
            position := some ⟨100, if b.position.y < 50 then 0 else 100⟩ }
        else
          { isOut := true, type := some .goalkick, team := some .away,
            position := some ⟨95, 50⟩ }) := by
  have hyout : ¬(b.position.y ≤ 0 ∨ b.position.y ≥ 100) := by
    push_neg
    exact ⟨hy0, hy100⟩
  constructor
  · intro hx
    unfold isBallOutOfBounds
    rw [if_neg hyout, if_pos hx]
  · intro hx
    have hx0 : ¬(b.position.x ≤ 0) := by linarith
    unfold isBallOutOfBounds
    rw [if_neg hyout, if_neg hx0, if_pos hx]

/-- Witness for the amended C3 at the spec's concrete inputs. -/
theorem goal_line_out_classification_witness :
    isBallOutOfBounds
        { position := ⟨-1, 50⟩, velocity := ⟨0, 0⟩, possessor := none,
          lastTouchTeam := .away, inAir := false, height := 0 }
      = { isOut := true, type := some .goalkick, team := some .home,
          position := some ⟨5, 50⟩ } ∧
    isBallOutOfBounds
        { position := ⟨101, 50⟩, velocity := ⟨0, 0⟩, possessor := none,
          lastTouchTeam := .away, inAir := false, height := 0 }
      = { isOut := true, type := some .corner, team := some .home,
          position := some ⟨100, 100⟩ } := by
  constructor
  · have h := (goal_line_out_classification
      { position := ⟨-1, 50⟩, velocity := ⟨0, 0⟩, possessor := none,
        lastTouchTeam := .away, inAir := false, height := 0 }
      (by norm_num) (by norm_num)).1 (by norm_num)
    simpa using h
  · have h := (goal_line_out_classification
      { position := ⟨101, 50⟩, velocity := ⟨0, 0⟩, possessor := none,
        lastTouchTeam := .away, inAir := false, height := 0 }
      (by norm_num) (by norm_num)).2 (by norm_num)
    simpa using h

/-! ## C4 -/

instance : IsTotal ℚ (· ≥ ·) := ⟨fun a b => le_total b a⟩

instance : IsTrans ℚ (· ≥ ·) := ⟨fun _ _ _ h1 h2 => le_trans h2 h1⟩

/-- Sorting preserves length (ascending). -/
theorem sortAsc_length (xs : List ℚ) : (sortAsc xs).length = xs.length := by
  unfold sortAsc
  exact (List.perm_insertionSort _ _).length_eq

/-- Sorting preserves length (descending). -/
theorem sortDesc_length (xs : List ℚ) : (sortDesc xs).length = xs.length := by
  unfold sortDesc
  exact (List.perm_insertionSort _ _).length_eq

/-- The second element of an ascending sort is a member with at most one
strictly smaller element and at least two elements `≤` it. -/
theorem sortAsc_second {xs : List ℚ} {a b : ℚ} {rest : List ℚ}
    (h : sortAsc xs = a :: b :: rest) :
    b ∈ xs ∧ xs.countP (fun x => decide (x < b)) ≤ 1 ∧
      2 ≤ xs.countP (fun x => decide (x ≤ b)) := by
  have hperm : List.Perm (sortAsc xs) xs := List.perm_insertionSort _ xs
  have hsorted : List.Sorted (· ≤ ·) (sortAsc xs) := List.sorted_insertionSort _ xs
  rw [h] at hperm hsorted
  have hab : a ≤ b := (List.sorted_cons.mp hsorted).1 b (by simp)
  have hrest : ∀ x ∈ rest, b ≤ x :=
    (List.sorted_cons.mp (List.sorted_cons.mp hsorted).2).1
  refine ⟨hperm.subset (by simp), ?_, ?_⟩
  · rw [← hperm.countP_eq]
    have h0 : rest.countP (fun x => decide (x < b)) = 0 := by
      rw [List.countP_eq_zero]
      intro x hx
      simp [not_lt.mpr (hrest x hx)]
    simp only [List.countP_cons, h0, decide_eq_true_eq]
    split_ifs <;> simp_all
  · rw [← hperm.countP_eq]
    simp only [List.countP_cons, decide_eq_true_eq]
    split_ifs <;> simp_all

/-- The second element of a descending sort is a member with at most one
strictly larger element and at least two elements `≥` it. -/
theorem sortDesc_second {xs : List ℚ} {a b : ℚ} {rest : List ℚ}
    (h : sortDesc xs = a :: b :: rest) :
    b ∈ xs ∧ xs.countP (fun x => decide (b < x)) ≤ 1 ∧
      2 ≤ xs.countP (fun x => decide (b ≤ x)) := by
  have hperm : List.Perm (sortDesc xs) xs := List.perm_insertionSort _ xs
  have hsorted : List.Sorted (· ≥ ·) (sortDesc xs) := List.sorted_insertionSort _ xs
  rw [h] at hperm hsorted
  have hab : b ≤ a := (List.sorted_cons.mp hsorted).1 b (by simp)
  have hrest : ∀ x ∈ rest, x ≤ b :=
    (List.sorted_cons.mp (List.sorted_cons.mp hsorted).2).1
  refine ⟨hperm.subset (by simp), ?_, ?_⟩
  · rw [← hperm.countP_eq]
    have h0 : rest.countP (fun x => decide (b < x)) = 0 := by
      rw [List.countP_eq_zero]
      intro x hx
      simp [not_lt.mpr (hrest x hx)]
    simp only [List.countP_cons, h0, decide_eq_true_eq]
    split_ifs <;> simp_all
  · rw [← hperm.countP_eq]
    simp only [List.countP_cons, decide_eq_true_eq]
    split_ifs <;> simp_all

/-- Unfolding `calculateOffsideLine` at the home side: the second element of
the ascending sort of the qualifying (away-team) defender coordinates, with
fallback 40. -/
theorem calculateOffsideLine_home_eq (players : List PlayerEntity) :
    (calculateOffsideLine players).home =
      (match sortAsc (qualifyingDefenderXs players .home) with
       | _ :: b :: _ => b
       | _ => 40) := rfl

/-- Unfolding `calculateOffsideLine` at the away side: the second element of
the descending sort of the qualifying (home-team) defender coordinates, with
fallback 60. -/
theorem calculateOffsideLine_away_eq (players : List PlayerEntity) :
    (calculateOffsideLine players).away =
      (match sortDesc (qualifyingDefenderXs players .away) with
       | _ :: b :: _ => b
       | _ => 60) := rfl

/-- C4: with at least two qualifying opposing defenders (role DEF or GK),
the computed offside line for a side is the second-most-advanced qualifying
defender coordinate in the defending team's attacking direction (the line
is one of the defender coordinates; at most one defender lies strictly
beyond it, at least two lie at least as far); with fewer than two, the
fixed fallback 40 (home) / 60 (away) is returned and `isPlayerOffside` is
false. -/
theorem offside_line_second_most_advanced :
    ∀ players : List PlayerEntity,
      (2 ≤ (qualifyingDefenderXs players .home).length →
        (calculateOffsideLine players).home ∈ qualifyingDefenderXs players .home ∧
        (qualifyingDefenderXs players .home).countP
            (fun x => moreAdvanced .away x ((calculateOffsideLine players).home)) ≤ 1 ∧
        2 ≤ (qualifyingDefenderXs players .home).countP
            (fun x => atLeastAsAdvanced .away x ((calculateOffsideLine players).home))) ∧
      ((qualifyingDefenderXs players .home).length < 2 →
        (calculateOffsideLine players).home = 40) ∧
      (2 ≤ (qualifyingDefenderXs players .away).length →
        (calculateOffsideLine players).away ∈ qualifyingDefenderXs players .away ∧
        (qualifyingDefenderXs players .away).countP
            (fun x => moreAdvanced .home x ((calculateOffsideLine players).away)) ≤ 1 ∧
        2 ≤ (qualifyingDefenderXs players .away).countP
            (fun x => atLeastAsAdvanced .home x ((calculateOffsideLine players).away))) ∧
      ((qualifyingDefenderXs players .away).length < 2 →
        (calculateOffsideLine players).away = 60) ∧
      (∀ (player : PlayerEntity) (teammates opponents : List PlayerEntity)
          (ball : BallEntity),
        (opponents.filter fun p => decide (p.role = .DEF ∨ p.role = .GK)).length < 2 →
        isPlayerOffside player teammates opponents ball = false) := by
  intro players
  refine ⟨?_, ?_, ?_, ?_, ?_⟩
  · intro hlen
    have hlen' : 2 ≤ (sortAsc (qualifyingDefenderXs players .home)).length := by
      rw [sortAsc_length]
      exact hlen
    rcases hs : sortAsc (qualifyingDefenderXs players .home) with _ | ⟨a, _ | ⟨b, rest⟩⟩
    · rw [hs] at hlen'
      simp at hlen'
    · rw [hs] at hlen'
      simp at hlen'
    · have hline : (calculateOffsideLine players).home = b := by
        rw [calculateOffsideLine_home_eq, hs]
      obtain ⟨hmem, hc1, hc2⟩ := sortAsc_second hs
      rw [hline]
      refine ⟨hmem, ?_, ?_⟩
      · simpa [moreAdvanced] using hc1
      · simpa [atLeastAsAdvanced] using hc2
  · intro hlen
    have hlen' : (sortAsc (qualifyingDefenderXs players .home)).length < 2 := by
      rw [sortAsc_length]
      exact hlen
    rw [calculateOffsideLine_home_eq]
    rcases hs : sortAsc (qualifyingDefenderXs players .home) with _ | ⟨a, _ | ⟨b, rest⟩⟩
    · rfl
    · rfl
    · rw [hs] at hlen'
      simp only [List.length_cons] at hlen'
      omega
  · intro hlen
    have hlen' : 2 ≤ (sortDesc (qualifyingDefenderXs players .away)).length := by
      rw [sortDesc_length]
      exact hlen
    rcases hs : sortDesc (qualifyingDefenderXs players .away) with _ | ⟨a, _ | ⟨b, rest⟩⟩
    · rw [hs] at hlen'
      simp at hlen'
    · rw [hs] at hlen'
      simp at hlen'
    · have hline : (calculateOffsideLine players).away = b := by
        rw [calculateOffsideLine_away_eq, hs]
      obtain ⟨hmem, hc1, hc2⟩ := sortDesc_second hs
      rw [hline]
      refine ⟨hmem, ?_, ?_⟩
      · simpa [moreAdvanced] using hc1
      · simpa [atLeastAsAdvanced] using hc2
  · intro hlen
    have hlen' : (sortDesc (qualifyingDefenderXs players .away)).length < 2 := by
      rw [sortDesc_length]
      exact hlen
    rw [calculateOffsideLine_away_eq]
    rcases hs : sortDesc (qualifyingDefenderXs players .away) with _ | ⟨a, _ | ⟨b, rest⟩⟩
    · rfl
    · rfl
    · rw [hs] at hlen'
      simp only [List.length_cons] at hlen'
      omega
  · intro player teammates opponents ball hlen
    have hmaplen :
        ((opponents.filter fun p => decide (p.role = .DEF ∨ p.role = .GK)).map
          (fun p => p.position.x)).length < 2 := by
      rw [List.length_map]
      exact hlen
    unfold isPlayerOffside
    split
    · rfl
    · dsimp only
      split
      · next heq =>
        exfalso
        by_cases hh : player.team = TeamSide.home
        · rw [if_pos hh] at heq
          have hl := sortAsc_length ((opponents.filter fun p =>
            decide (p.role = .DEF ∨ p.role = .GK)).map fun p => p.position.x)
          rw [heq] at hl
          simp only [List.length_cons] at hl
          omega
        · rw [if_neg hh] at heq
          have hl := sortDesc_length ((opponents.filter fun p =>
            decide (p.role = .DEF ∨ p.role = .GK)).map fun p => p.position.x)
          rw [heq] at hl
          simp only [List.length_cons] at hl
          omega
      · rfl

/-- A minimal concrete player for witnesses. -/
def samplePlayer (team : TeamSide) (role : PlayerRole) (id : Int) (x y : ℚ) : PlayerEntity :=
  { id := id, name := "", team := team, role := role, position := ⟨x, y⟩,
    targetPosition := ⟨x, y⟩, attributes := ⟨0, 0, 0, 0, 0, 0⟩, fatigue := 0,
    injured := false, redCard := false }

/-- A concrete pitch: four qualifying away defenders (GK at 95, defenders at
60/70/80) and a lone home forward, so the home offside line has four
qualifying defenders and the away line has none. -/
def sampleOffsidePlayers : List PlayerEntity :=
  [samplePlayer .away .GK 1 95 50, samplePlayer .away .DEF 2 60 30,
   samplePlayer .away .DEF 3 70 50, samplePlayer .away .DEF 4 80 70,
   samplePlayer .home .FWD 5 40 50]

/-- Witness for C4: on `sampleOffsidePlayers` the home line (70, the second
smallest away-defender coordinate) satisfies the second-most-advanced
characterisation, the away line falls back to 60, and `isPlayerOffside` is
false with no qualifying defenders. -/
theorem offside_line_second_most_advanced_witness :
    (2 ≤ (qualifyingDefenderXs sampleOffsidePlayers .home).length ∧
      (calculateOffsideLine sampleOffsidePlayers).home
        ∈ qualifyingDefenderXs sampleOffsidePlayers .home ∧
      (qualifyingDefenderXs sampleOffsidePlayers .home).countP
        (fun x => moreAdvanced .away x
          ((calculateOffsideLine sampleOffsidePlayers).home)) ≤ 1 ∧
      2 ≤ (qualifyingDefenderXs sampleOffsidePlayers .home).countP
        (fun x => atLeastAsAdvanced .away x
          ((calculateOffsideLine sampleOffsidePlayers).home))) ∧
    ((qualifyingDefenderXs sampleOffsidePlayers .away).length < 2 ∧
      (calculateOffsideLine sampleOffsidePlayers).away = 60) ∧
    ((([] : List PlayerEntity).filter fun p =>
        decide (p.role = .DEF ∨ p.role = .GK)).length < 2 ∧
      isPlayerOffside (samplePlayer .home .FWD 5 40 50) [] []
        (newBallEntity ⟨50, 50⟩) = false) := by
  refine ⟨⟨by decide, (offside_line_second_most_advanced sampleOffsidePlayers).1 (by decide)⟩,
    ⟨by decide, (offside_line_second_most_advanced sampleOffsidePlayers).2.2.2.1 (by decide)⟩,
    ⟨by decide, (offside_line_second_most_advanced sampleOffsidePlayers).2.2.2.2
      (samplePlayer .home .FWD 5 40 50) [] [] (newBallEntity ⟨50, 50⟩) (by decide)⟩⟩

/-! ## C5 -/

/-- A roster that violates every shape requirement: no goalkeeper and zero
players in total. -/
def emptyRosterTeamData : TeamData :=
  { id := "home", name := "Home", color := "", secondaryColor := "",
    players := [], formation := .f442,
    tactics := ⟨.possession, .midblock, 5, 5, 5, 5, .mixed⟩ }

/-- The away-side copy of the degenerate roster. -/
def emptyRosterAwayData : TeamData :=
  { emptyRosterTeamData with
    id := "away",
    name := "Away",
    tactics := ⟨.counter, .lowblock, 5, 3, 5, 7, .short⟩ }

/-- C5: the claim "initialize validates roster shape and prevents the match
from starting" is violated: `initialize` contains no roster validation at
all — for **every** roster (valid or not) it constructs the engine in state
`idle` and a subsequent `startGame` reaches `playing`; in particular a
roster with no goalkeeper and zero players (shape-invalid per spec §7)
still lets the match start. -/
theorem no_roster_validation :
    (∀ (e : MatchEngine) (homeTeamData awayTeamData : TeamData),
      (e.initFromData homeTeamData awayTeamData).matchState.gameState = GameState.idle ∧
      (e.initFromData homeTeamData awayTeamData).startGame.matchState.gameState
        = GameState.playing) ∧
    (rosterShapeOk emptyRosterTeamData = false ∧
      (newMatchEngine.initFromData emptyRosterTeamData
        emptyRosterAwayData).startGame.matchState.gameState = GameState.playing) := by
  refine ⟨fun e hd ad => ⟨rfl, rfl⟩, by decide, rfl⟩

/-! ## C6 -/

/-- C6: `setPossessor(p)` zeroes the ball's velocity (and records the
possessor), and every `update` tick taken while the possessor is non-null
forces the ball's position to the possessor's position and keeps the
possessor, so the invariant holds on every subsequent tick until the
possessor is cleared. -/
theorem possessor_controls_ball :
    (∀ (b : BallEntity) (p : PlayerEntity),
      (b.setPossessor (some p)).velocity = ⟨0, 0⟩ ∧
      (b.setPossessor (some p)).possessor = some p) ∧
    (∀ (b : BallEntity) (p : PlayerEntity) (gameSpeed : ℚ),
      b.possessor = some p →
      (b.update gameSpeed).position = p.position ∧
      (b.update gameSpeed).possessor = some p) := by
  constructor
  · intro b p
    exact ⟨rfl, rfl⟩
  · intro b p gameSpeed h
    unfold BallEntity.update
    rw [h]
    exact ⟨rfl, rfl⟩

/-- Witness for C6 at a concrete ball and possessor. -/
theorem possessor_controls_ball_witness :
    (({ position := ⟨10, 10⟩, velocity := ⟨3, 4⟩,
        possessor := some (samplePlayer .home .FWD 7 33 44),
        lastTouchTeam := .home, inAir := false, height := 0 : BallEntity }).update
      1).position = ⟨33, 44⟩ := by
  have h := possessor_controls_ball.2
    { position := ⟨10, 10⟩, velocity := ⟨3, 4⟩,
      possessor := some (samplePlayer .home .FWD 7 33 44),
      lastTouchTeam := .home, inAir := false, height := 0 }
    (samplePlayer .home .FWD 7 33 44) 1 rfl
  exact h.1

/-! ## C7 -/

/-- `findIndex` misses exactly when no element satisfies the predicate. -/
theorem findIndex_eq_none_iff {p : PlayerEntity → Bool} {l : List PlayerEntity} :
    findIndex p l = none ↔ ∀ x ∈ l, p x = false := by
  induction l with
  | nil => simp [findIndex]
  | cons a t ih =>
    by_cases h : p a
    · simp [findIndex, h]
    · simp only [findIndex, h, if_neg, Bool.not_eq_true, Option.map_eq_none', ih,
        List.mem_cons]
      constructor
      · rintro hall x (rfl | hx)
        · simpa using h
        · exact hall x hx
      · intro hall x hx
        exact hall x (Or.inr hx)

/-- A hit of `findIndex` points at an element satisfying the predicate. -/
theorem findIndex_some {p : PlayerEntity → Bool} :
    ∀ {l : List PlayerEntity} {i : ℕ}, findIndex p l = some i →
      ∃ x, l.get? i = some x ∧ p x = true := by
  intro l
  induction l with
  | nil => intro i h; simp [findIndex] at h
  | cons a t ih =>
    intro i h
    by_cases ha : p a
    · simp only [findIndex, ha, if_pos] at h
      obtain rfl : (0 : ℕ) = i := Option.some.inj h
      exact ⟨a, rfl, ha⟩
    · simp only [findIndex, ha, Bool.false_eq_true, if_neg, Option.map_eq_some',
        not_false_iff] at h
      obtain ⟨j, hj, rfl⟩ := h
      obtain ⟨x, hx, hpx⟩ := ih hj
      exact ⟨x, by simpa using hx, hpx⟩

/-- Replacing the unique predicate-satisfying element (at its found index)
by one that fails the predicate leaves no satisfying element. -/
theorem countP_set_found {p : PlayerEntity → Bool} :
    ∀ {l : List PlayerEntity} {i : ℕ} (b : PlayerEntity),
      findIndex p l = some i → l.countP p = 1 → p b = false →
      (l.set i b).countP p = 0 := by
  intro l
  induction l with
  | nil => intro i b h; simp [findIndex] at h
  | cons a t ih =>
    intro i b h hcount hb
    by_cases ha : p a
    · simp only [findIndex, ha, if_pos] at h
      obtain rfl : (0 : ℕ) = i := Option.some.inj h
      simp only [List.countP_cons, ha, if_pos] at hcount
      have ht : t.countP p = 0 := by omega
      simp [List.countP_cons, hb, ht]
    · simp only [findIndex, ha, Bool.false_eq_true, if_neg, Option.map_eq_some',
        not_false_iff] at h
      obtain ⟨j, hj, rfl⟩ := h
      simp only [List.countP_cons, ha, Bool.false_eq_true, if_neg,
        not_false_iff, add_zero] at hcount
      have := ih b hj hcount hb
      simp [List.countP_cons, ha, this]

/-- C7: a substitution request whose outgoing player occurs exactly once on
the field and whose incoming player is on the bench succeeds; repeating the
same request on the returned player list fails with the structured
"not found on the field" message (no exception), because the outgoing
player has been replaced by the incoming one. -/
theorem substitution_succeeds_once
    (request : SubstitutionRequest) (bench : List PlayerEntity)
    (homeTeam awayTeam homeTeam2 awayTeam2 : TeamEntity)
    (activePlayers : List PlayerEntity)
    (hcount : activePlayers.countP
      (fun p => decide (p.team = request.team ∧ p.id = request.playerOut)) = 1)
    (hbench : ∃ q ∈ bench, q.id = request.playerIn)
    (hne : request.playerIn ≠ request.playerOut) :
    (makeSubstitution request bench homeTeam awayTeam activePlayers).result.success
      = true ∧
    ∃ updated,
      (makeSubstitution request bench homeTeam awayTeam
        activePlayers).result.updatedPlayers = some updated ∧
      (makeSubstitution request
        (makeSubstitution request bench homeTeam awayTeam activePlayers).bench
        homeTeam2 awayTeam2 updated).result.success = false ∧
      (makeSubstitution request
        (makeSubstitution request bench homeTeam awayTeam activePlayers).bench
        homeTeam2 awayTeam2 updated).result.message
        = "Player to substitute out not found on the field" := by
  set pOut : PlayerEntity → Bool :=
    fun p => decide (p.team = request.team ∧ p.id = request.playerOut) with hpOut
  set pIn : PlayerEntity → Bool := fun p => decide (p.id = request.playerIn) with hpIn
  obtain ⟨i, hi⟩ : ∃ i, findIndex pOut activePlayers = some i := by
    cases hfi : findIndex pOut activePlayers with
    | none =>
      exfalso
      have hall := findIndex_eq_none_iff.mp hfi
      have : activePlayers.countP pOut = 0 := List.countP_eq_zero.mpr (by
        intro x hx
        simp [hall x hx])
      omega
    | some i => exact ⟨i, rfl⟩
  obtain ⟨j, hj⟩ : ∃ j, findIndex pIn bench = some j := by
    cases hfj : findIndex pIn bench with
    | none =>
      exfalso
      obtain ⟨q, hq, hqid⟩ := hbench
      have hall := findIndex_eq_none_iff.mp hfj
      have := hall q hq
      simp [hpIn, hqid] at this
    | some j => exact ⟨j, rfl⟩
  obtain ⟨q, hqget, hqp⟩ := findIndex_some hj
  have hqid : q.id = request.playerIn := by simpa [hpIn] using hqp
  unfold makeSubstitution
  rw [← hpOut, ← hpIn, hi, hj]
  dsimp only
  refine ⟨rfl, _, rfl, ?_, ?_⟩
  all_goals
    have hpb : pOut { (bench.get? j).getD default with
        position := ((activePlayers.get? i).getD default).position,
        targetPosition := ((activePlayers.get? i).getD default).targetPosition }
        = false := by
      rw [hqget]
      simp only [hpOut, Option.getD_some, decide_eq_false_iff_not, not_and]
      intro _
      rw [hqid]
      exact hne
  all_goals
    have hzero := countP_set_found _ hi hcount hpb
  all_goals
    have hnone : findIndex pOut (activePlayers.set i
        { (bench.get? j).getD default with
          position := ((activePlayers.get? i).getD default).position,
          targetPosition := ((activePlayers.get? i).getD default).targetPosition })
        = none := by
      rw [findIndex_eq_none_iff]
      intro x hx
      by_contra hcontra
      have : 0 < (activePlayers.set i
          { (bench.get? j).getD default with
            position := ((activePlayers.get? i).getD default).position,
            targetPosition := ((activePlayers.get? i).getD default).targetPosition
          }).countP pOut := by
        apply List.countP_pos_iff.mpr
        exact ⟨x, hx, by simpa using hcontra⟩
      omega
  · rw [hnone]
  · rw [hnone]

/-- Concrete on-field players for the C7 witness. -/
def subActiveW : List PlayerEntity :=
  [samplePlayer .home .GK 1 10 50, samplePlayer .home .DEF 2 30 50]

/-- Concrete bench for the C7 witness. -/
def subBenchW : List PlayerEntity :=
  [samplePlayer .home .DEF 10 0 0]

/-- Concrete team record for the C7 witness. -/
def subTeamW : TeamEntity :=
  newTeamEntity "home" "Home" "" "" .f442 ⟨.possession, .midblock, 5, 5, 5, 5, .mixed⟩

/-- Witness for C7: substituting player 2 for bench player 10 succeeds once
and fails with the "not found on the field" message when repeated. -/
theorem substitution_succeeds_once_witness :
    (makeSubstitution ⟨.home, 2, 10⟩ subBenchW subTeamW subTeamW
      subActiveW).result.success = true ∧
    ∃ updated,
      (makeSubstitution ⟨.home, 2, 10⟩ subBenchW subTeamW subTeamW
        subActiveW).result.updatedPlayers = some updated ∧
      (makeSubstitution ⟨.home, 2, 10⟩
        (makeSubstitution ⟨.home, 2, 10⟩ subBenchW subTeamW subTeamW subActiveW).bench
        subTeamW subTeamW updated).result.success = false ∧
      (makeSubstitution ⟨.home, 2, 10⟩
        (makeSubstitution ⟨.home, 2, 10⟩ subBenchW subTeamW subTeamW subActiveW).bench
        subTeamW subTeamW updated).result.message
        = "Player to substitute out not found on the field" :=
  substitution_succeeds_once ⟨.home, 2, 10⟩ subBenchW subTeamW subTeamW subTeamW
    subTeamW subActiveW (by decide) (by decide) (by decide)

/-! ## C8 -/

/-- C8: for every pair of players, distance and sequence of random draws,
`detectFoul` decides the foul exactly against the threshold
`clamp(0.05, 0.8, 0.1 + aggression/10 − tackling/20 + distanceToBall/50)`
(the tackler's fatigue-adjusted attributes), and the emitted result never
has `isYellowCard` and `isRedCard` simultaneously true. -/
theorem detectFoul_eq_threshold_form (tp td : PlayerEntity) (d r1 r2 r3 : ℚ) :
    detectFoul tp td d r1 r2 r3 =
      (if decide (r1 < foulThreshold tp d) = false then
        { isFoul := false, isPenalty := false, isYellowCard := false, isRedCard := false }
      else
        { isFoul := decide (r1 < foulThreshold tp d),
          isPenalty := isInPenaltyArea td.position
            (if td.team = TeamSide.home then TeamSide.away else TeamSide.home),
          isYellowCard :=
            decide (r2 < 3 / 10 + tp.getEffectiveAttribute .aggression / 20 + d / 100)
              && !(decide (r2 < 3 / 10 + tp.getEffectiveAttribute .aggression / 20 + d / 100)
                && decide (r3 < 1 / 10 + tp.getEffectiveAttribute .aggression / 30)),
          isRedCard :=
            decide (r2 < 3 / 10 + tp.getEffectiveAttribute .aggression / 20 + d / 100)
              && decide (r3 < 1 / 10 + tp.getEffectiveAttribute .aggression / 30) }) :=
  rfl

theorem detectFoul_threshold_and_cards :
    ∀ (tacklingPlayer tackledPlayer : PlayerEntity) (distanceToBall r1 r2 r3 : ℚ),
      ((detectFoul tacklingPlayer tackledPlayer distanceToBall r1 r2 r3).isFoul
        = decide (r1 < foulThreshold tacklingPlayer distanceToBall)) ∧
      ¬((detectFoul tacklingPlayer tackledPlayer distanceToBall r1 r2 r3).isYellowCard
          = true ∧
        (detectFoul tacklingPlayer tackledPlayer distanceToBall r1 r2 r3).isRedCard
          = true) := by
  intro tp td d r1 r2 r3
  rw [detectFoul_eq_threshold_form]
  cases hc : decide (r1 < foulThreshold tp d)
  · rw [if_pos rfl]
    exact ⟨rfl, by simp⟩
  · rw [if_neg (by simp)]
    refine ⟨rfl, ?_⟩
    dsimp only
    rintro ⟨h1, h2⟩
    rw [h2] at h1
    simp at h1

/-! ## C9 -/

/-- The score margin from a side's own point of view. -/
def scoreLineDiff (side : TeamSide) (s : MatchState) : ℤ :=
  match side with
  | .home => (s.score.home : ℤ) - (s.score.away : ℤ)
  | .away => (s.score.away : ℤ) - (s.score.home : ℤ)

/-- C9: `analyzeTacticalSituation` is a pure function (two calls on the same
inputs agree); with an active set piece it returns `setpieceAttack` for the
owning side and `setpieceDefense` for the other side, and with no set piece
and under 10 minutes remaining it returns `parkTheBus` when leading,
`allOutAttack` when trailing, and `midBlock` when level. -/
theorem analyze_deterministic_table :
    (∀ (team opposition : TeamEntity) (matchState : MatchState) (ball : BallEntity),
      analyzeTacticalSituation team opposition matchState ball
        = analyzeTacticalSituation team opposition matchState ball) ∧
    (∀ (team opposition : TeamEntity) (matchState : MatchState) (ball : BallEntity)
        (side : TeamSide),
      matchState.setpiece.type ≠ none →
      matchState.setpiece.team = some side →
      (team.id = sideStr side →
        analyzeTacticalSituation team opposition matchState ball = .setpieceAttack) ∧
      (team.id = sideStr side.other →
        analyzeTacticalSituation team opposition matchState ball = .setpieceDefense)) ∧
    (∀ (team opposition : TeamEntity) (matchState : MatchState) (ball : BallEntity)
        (side : TeamSide),
      matchState.setpiece.type = none →
      90 - matchState.gameTime < 10 →
      team.id = sideStr side →
      (0 < scoreLineDiff side matchState →
        analyzeTacticalSituation team opposition matchState ball = .parkTheBus) ∧
      (scoreLineDiff side matchState < 0 →
        analyzeTacticalSituation team opposition matchState ball = .allOutAttack) ∧
      (scoreLineDiff side matchState = 0 →
        analyzeTacticalSituation team opposition matchState ball = .midBlock)) := by
  refine ⟨fun _ _ _ _ => rfl, ?_, ?_⟩
  · intro team opposition matchState ball side htype hteam
    constructor
    · intro hid
      cases side <;>
        simp [analyzeTacticalSituation, htype, hteam, hid, sideStr]
    · intro hid
      have hne : sideStr side ≠ sideStr side.other := by
        cases side <;> simp [sideStr, TeamSide.other]
      cases side <;>
        simp_all [analyzeTacticalSituation, htype, hteam, hid, sideStr, TeamSide.other]
  · intro team opposition matchState ball side htype htime hid
    refine ⟨?_, ?_, ?_⟩ <;> intro hscore <;> cases side <;>
      simp_all [analyzeTacticalSituation, scoreLineDiff, sideStr, htype, htime] <;>
      omega

/-- Concrete home team for the C9 witness. -/
def teamHomeW : TeamEntity :=
  newTeamEntity "home" "Home" "" "" .f442 ⟨.possession, .midblock, 5, 5, 5, 5, .mixed⟩

/-- Concrete away team for the C9 witness. -/
def teamAwayW : TeamEntity :=
  newTeamEntity "away" "Away" "" "" .f442 ⟨.counter, .lowblock, 5, 3, 5, 7, .short⟩

/-- A state with an active corner set piece owned by home. -/
def spStateW : MatchState :=
  { initialMatchState with setpiece := ⟨some .corner, some .home, some ⟨100, 0⟩⟩ }

/-- A late-game state (minute 85) with home leading 1-0. -/
def lateStateW : MatchState :=
  { initialMatchState with gameTime := 85, score := ⟨1, 0⟩ }

/-- A late-game state (minute 85) level at 0-0. -/
def tiedLateW : MatchState :=
  { initialMatchState with gameTime := 85 }

/-- Witness for C9 at concrete inputs: set-piece attack/defense split and
the three late-game rows. -/
theorem analyze_deterministic_table_witness :
    analyzeTacticalSituation teamHomeW teamAwayW spStateW (newBallEntity ⟨50, 50⟩)
      = .setpieceAttack ∧
    analyzeTacticalSituation teamAwayW teamHomeW spStateW (newBallEntity ⟨50, 50⟩)
      = .setpieceDefense ∧
    analyzeTacticalSituation teamHomeW teamAwayW lateStateW (newBallEntity ⟨50, 50⟩)
      = .parkTheBus ∧
    analyzeTacticalSituation teamAwayW teamHomeW lateStateW (newBallEntity ⟨50, 50⟩)
      = .allOutAttack ∧
    analyzeTacticalSituation teamHomeW teamAwayW tiedLateW (newBallEntity ⟨50, 50⟩)
      = .midBlock := by
  refine ⟨(analyze_deterministic_table.2.1 teamHomeW teamAwayW spStateW
      (newBallEntity ⟨50, 50⟩) .home (by decide) rfl).1 rfl,
    (analyze_deterministic_table.2.1 teamAwayW teamHomeW spStateW
      (newBallEntity ⟨50, 50⟩) .home (by decide) rfl).2 rfl,
    (analyze_deterministic_table.2.2 teamHomeW teamAwayW lateStateW
      (newBallEntity ⟨50, 50⟩) .home rfl (by norm_num [lateStateW, initialMatchState])
      rfl).1 (by decide),
    (analyze_deterministic_table.2.2 teamAwayW teamHomeW lateStateW
      (newBallEntity ⟨50, 50⟩) .away rfl (by norm_num [lateStateW, initialMatchState])
      rfl).2.1 (by decide),
    (analyze_deterministic_table.2.2 teamHomeW teamAwayW tiedLateW
      (newBallEntity ⟨50, 50⟩) .home rfl (by norm_num [tiedLateW, initialMatchState])
      rfl).2.2 (by decide)⟩

/-! ## C10 -/

/-- C10: `advanceToNextHalf` increments `half` by exactly one only below 4
(resetting both stoppage accumulators and installing a centre-spot kickoff
for away exactly when the new half is 2, else for home), leaves the state
unchanged at 4, and — together with `reset`, `addEvent` and
`updatePossessionStats` — keeps `half` in `{1, 2, 3, 4}`. -/
theorem advanceToNextHalf_spec :
    ∀ s : MatchState,
      (s.half < 4 →
        s.advanceToNextHalf.half = s.half + 1 ∧
        s.advanceToNextHalf.stoppageTime = 0 ∧
        s.advanceToNextHalf.stoppageTimeAdded = 0 ∧
        s.advanceToNextHalf.setpiece =
          ⟨some .kickoff, some (if s.half + 1 = 2 then .away else .home),
            some ⟨50, 50⟩⟩) ∧
      (s.half = 4 → s.advanceToNextHalf = s) ∧
      ((s.half = 1 ∨ s.half = 2 ∨ s.half = 3 ∨ s.half = 4) →
        (s.advanceToNextHalf.half = 1 ∨ s.advanceToNextHalf.half = 2 ∨
          s.advanceToNextHalf.half = 3 ∨ s.advanceToNextHalf.half = 4)) ∧
      (∀ event : GameEvent, (s.addEvent event).half = s.half) ∧
      (s.reset.half = 1) ∧
      (∀ (currentPossessionTeam : TeamSide) (deltaTime : ℚ),
        (s.updatePossessionStats currentPossessionTeam deltaTime).half = s.half) := by
  intro s
  refine ⟨?_, ?_, ?_, ?_, rfl, ?_⟩
  · intro h
    unfold MatchState.advanceToNextHalf
    rw [if_pos h]
    exact ⟨rfl, rfl, rfl, rfl⟩
  · intro h
    unfold MatchState.advanceToNextHalf
    rw [if_neg (by omega)]
  · intro h
    unfold MatchState.advanceToNextHalf
    split
    · dsimp only
      omega
    · omega
  · intro event
    rcases event with ⟨ty, time, msg, p1, p2, tid, pos⟩
    rcases p1 with _ | pid <;>
      cases ty <;>
        simp only [MatchState.addEvent] <;>
          first
            | rfl
            | (split_ifs <;> rfl)
  · intro currentPossessionTeam deltaTime
    unfold MatchState.updatePossessionStats
    split <;> rfl

/-- Witness for C10 at half 1, 3, 4 and a concrete event. -/
theorem advanceToNextHalf_spec_witness :
    (initialMatchState.advanceToNextHalf.half = 2 ∧
      initialMatchState.advanceToNextHalf.stoppageTime = 0 ∧
      initialMatchState.advanceToNextHalf.stoppageTimeAdded = 0 ∧
      initialMatchState.advanceToNextHalf.setpiece =
        ⟨some .kickoff, some .away, some ⟨50, 50⟩⟩) ∧
    ({ initialMatchState with half := 4 }.advanceToNextHalf
      = { initialMatchState with half := 4 }) ∧
    (initialMatchState.advanceToNextHalf.half = 1 ∨
      initialMatchState.advanceToNextHalf.half = 2 ∨
      initialMatchState.advanceToNextHalf.half = 3 ∨
      initialMatchState.advanceToNextHalf.half = 4) := by
  refine ⟨?_, ?_, ?_⟩
  · have h := (advanceToNextHalf_spec initialMatchState).1 (by decide)
    simpa using h
  · exact (advanceToNextHalf_spec { initialMatchState with half := 4 }).2.1 rfl
  · exact (advanceToNextHalf_spec initialMatchState).2.2.1 (by decide)

end Soccer
